import Mathlib

/-!
Shallow embedding of `src/ppt/src/PptUploadRow.tsx`.

The component holds eight `useState` cells; we model them as one `State`
record.  The two event handlers become pure state-transition functions:

* `handleFileChange` is parameterized by the selected file (if any) and by
  the outcome of the asynchronous archive load (`JSZip.loadAsync`), which we
  model as `Option (List String)` — the list of entry names of the archive
  (`Object.keys(zip.files)`), or `none` when reading/parsing threw.
* `handleStart` is parameterized by a `FetchOutcome` describing what the
  single `fetch` call would do; it returns the new state together with the
  list of observable effects (network call, `alert`), so that "no network
  call is made" is a statement about the effect list.

JavaScript truthiness on the nullable string/number cells is modelled
explicitly (`jsTruthyOptStr`, `jsTruthyStr`, `jsOrStr`, `jsOrNat`).
-/

namespace Ppt

/-- `slideCount` in the TS interface is `number | "Unknown" | null`. -/
inductive SlideCount where
  | num : Nat → SlideCount
  | unknown : SlideCount
  | nullc : SlideCount
deriving DecidableEq, Repr

/-- The `FileInfo` interface of the source. -/
structure FileInfo where
  name : String
  type : String
  size : String
  slideCount : SlideCount
deriving DecidableEq, Repr

/-- The relevant observable fields of a DOM `File` object: its `name`,
`type` (declared MIME string) and `size` in bytes. -/
structure FileData where
  name : String
  type : String
  size : Nat
deriving DecidableEq, Repr

/-- The eight `useState` cells of `PptUploadRow`. -/
structure State where
  selectedReport : Option String
  fileInfo : Option FileInfo
  uploadedFile : Option FileData
  selectedOptions : List String
  error : String
  correctedFileUrl : Option String
  amendedSlidesCount : Option Nat
  isProcessing : Bool
deriving DecidableEq, Repr

/-- The initial values passed to `useState`. -/
def initState : State :=
  { selectedReport := none
    fileInfo := none
    uploadedFile := none
    selectedOptions := []
    error := ""
    correctedFileUrl := none
    amendedSlidesCount := none
    isProcessing := false }

/-- JS truthiness of a `string | null` value: `null` and `""` are falsy. -/
def jsTruthyOptStr : Option String → Bool
  | none => false
  | some s => s != ""

/-- JS truthiness of an optional string field of a parsed JSON object
(`undefined` and `""` are falsy). -/
def jsTruthyStr : Option String → Bool
  | none => false
  | some s => s != ""

/-- JS `a || b` for a string `a` (used for `err.message || fallback`). -/
def jsOrStr (a b : String) : String :=
  if a = "" then b else a

/-- JS `a || b` where `a` is an optional number field of a parsed JSON
object (`undefined` and `0` are falsy). -/
def jsOrNat : Option Nat → Nat → Nat
  | none, d => d
  | some n, d => if n = 0 then d else n

/-- JS `String.prototype.toLowerCase`, character-wise (ASCII is all that
matters for the extension suffixes compared against). -/
def strLower (s : String) : String := ⟨s.data.map Char.toLower⟩

/-- JS `String.prototype.endsWith`. -/
def strEndsWith (s suffix : String) : Bool := suffix.data.isSuffixOf s.data

/-- JS `String.prototype.startsWith`. -/
def strStartsWith (s pre : String) : Bool := pre.data.isPrefixOf s.data

/-- `${(file.size / 1024).toFixed(2)} KB`.  The JS float division plus
`toFixed(2)` is modelled as exact rational rounding (half up) to two
decimal places; no claim depends on the tie-breaking behaviour. -/
def formatSizeKB (size : Nat) : String :=
  let h := (size * 100 + 512) / 1024
  let ip := h / 100
  let fp := h % 100
  let fs := if fp < 10 then "0" ++ toString fp else toString fp
  toString ip ++ "." ++ fs ++ " KB"

/-- The filter of zip entry names in `handleFileChange`:
`filename.startsWith("ppt/slides/slide") && filename.endsWith(".xml")`. -/
def isSlideEntry (filename : String) : Bool :=
  strStartsWith filename "ppt/slides/slide" && strEndsWith filename ".xml"

/-- The extension check of `handleFileChange`: the file name must end
case-insensitively in `.ppt` or `.pptx`. -/
def extensionValid (name : String) : Bool :=
  strEndsWith (strLower name) ".ppt" || strEndsWith (strLower name) ".pptx"

/-- `handleFileChange`.  `fileq` is `e.target.files?.[0]`; `zipResult` is
the outcome of `file.arrayBuffer()` + `JSZip.loadAsync`: `some entries`
with the archive's entry names on success, `none` when it threw.  For a
legacy `.ppt` file or an invalid extension the `zipResult` argument is
never consulted, matching the early returns of the source. -/
def handleFileChange (s : State) (fileq : Option FileData)
    (zipResult : Option (List String)) : State :=
  match fileq with
  | none => s
  | some file =>
    let s0 : State :=
      { s with uploadedFile := some file, correctedFileUrl := none,
               amendedSlidesCount := none }
    let isPptx := strEndsWith (strLower file.name) ".pptx"
    let isPpt := strEndsWith (strLower file.name) ".ppt"
    if !isPpt && !isPptx then
      { s0 with error := "Only .ppt or .pptx files are allowed.", fileInfo := none }
    else if isPpt then
      { s0 with
          fileInfo := some ⟨file.name, "ppt", formatSizeKB file.size,
            SlideCount.unknown⟩,
          error := "" }
    else
      match zipResult with
      | some entries =>
        let slideFiles := entries.filter isSlideEntry
        { s0 with
            fileInfo := some ⟨file.name, file.type, formatSizeKB file.size,
              SlideCount.num slideFiles.length⟩,
            error := "" }
      | none =>
        { s0 with error := "Failed to read pptx file.", fileInfo := none }

/-- Observable effects of `handleStart`: the `fetch` POST (with the
form-data fields `file`, `report`, `options`) and `alert`. -/
inductive Effect where
  | fetchPost (url : String) (file : FileData) (report : String)
      (options : List String) : Effect
  | alert (msg : String) : Effect
deriving DecidableEq, Repr

/-- The JSON fields of the response body that `handleStart` reads. -/
structure ApiResult where
  fileUrl : Option String
  fileBlob : Option String
  amendedSlidesCount : Option Nat
deriving DecidableEq, Repr

/-- What the `fetch` call does: either `fetch` itself throws (with
`err.message`), or it yields a response with an `ok` flag whose
`response.json()` either throws or yields a parsed `ApiResult`. -/
inductive FetchOutcome where
  | fetchThrow (msg : String) : FetchOutcome
  | response (ok : Bool) (json : Except String ApiResult) : FetchOutcome
deriving Repr

/-- The fixed endpoint of the POST. -/
def apiEndpoint : String := "/api/process-ppt"

/-- The `fetch` effect: form data carries the uploaded file, the chosen
report and the chosen options list. -/
def fetchEffect (s : State) (file : FileData) : Effect :=
  Effect.fetchPost apiEndpoint file (s.selectedReport.getD "") s.selectedOptions

/-- Lines 100-102 of the source: clear the error and both result cells
after the preconditions pass. -/
def afterChecks (s : State) : State :=
  { s with error := ""
           correctedFileUrl := none
           amendedSlidesCount := none }

/-- Result of the `try` block body: normal completion or a thrown message,
each carrying the state and effects accumulated so far. -/
inductive TryResult where
  | ok (s : State) (effs : List Effect) : TryResult
  | thrown (msg : String) (s : State) (effs : List Effect) : TryResult
deriving Repr

/-- The body of the `try` block in the language branch of `handleStart`:
issue the POST, throw on a non-ok status, parse the JSON, set the
corrected-file URL (the `fileBlob` branch is an acknowledged no-op), set
the amended-slides count with JS `|| 0`, and alert success. -/
def tryBody (s : State) (file : FileData) (outcome : FetchOutcome) : TryResult :=
  match outcome with
  | FetchOutcome.fetchThrow msg => TryResult.thrown msg s [fetchEffect s file]
  | FetchOutcome.response ok json =>
    if !ok then
      TryResult.thrown "Failed to process the PPT file." s [fetchEffect s file]
    else
      match json with
      | Except.error msg => TryResult.thrown msg s [fetchEffect s file]
      | Except.ok result =>
        let s1 :=
          if jsTruthyStr result.fileUrl then
            { s with correctedFileUrl := result.fileUrl }
          else if jsTruthyStr result.fileBlob then
            s
          else
            { s with correctedFileUrl := none }
        let s2 := { s1 with
          amendedSlidesCount := some (jsOrNat result.amendedSlidesCount 0) }
        TryResult.ok s2
          [fetchEffect s file, Effect.alert "Process completed successfully!"]

/-- The language branch of `handleStart`: `setIsProcessing(true)`, run the
`try` body, on a caught error set `err.message || fallback`, and clear the
processing flag in the `finally` block on every path. -/
def processLanguage (s : State) (file : FileData) (outcome : FetchOutcome) :
    State × List Effect :=
  match tryBody { s with isProcessing := true } file outcome with
  | TryResult.ok s1 effs => ({ s1 with isProcessing := false }, effs)
  | TryResult.thrown msg s1 effs =>
      ({ s1 with error := jsOrStr msg "Error processing the file."
                 isProcessing := false }, effs)

/-- `handleStart`: three short-circuiting precondition checks, then the
clears of `afterChecks`, then either the language branch (network) or an
immediate success alert. -/
def handleStart (s : State) (outcome : FetchOutcome) : State × List Effect :=
  if !(jsTruthyOptStr s.selectedReport) then
    ({ s with error := "Please select a report." }, [])
  else
    match s.fileInfo, s.uploadedFile with
    | some _, some file =>
      if s.selectedOptions.length = 0 then
        ({ s with error := "Please select at least one option." }, [])
      else if s.selectedOptions.contains "language" then
        processLanguage (afterChecks s) file outcome
      else
        (afterChecks s, [Effect.alert "Process started successfully!"])
    | _, _ => ({ s with error := "Please upload a PowerPoint file." }, [])

/-- The report `<select>` element of the render carries no `disabled`
attribute (source lines 168-179). -/
def reportSelectDisabled (_ : State) : Bool := false

/-- The file `<input>` has `disabled={isProcessing}`. -/
def fileInputDisabled (s : State) : Bool := s.isProcessing

/-- The options multi-`Select` has `isDisabled={isProcessing}`. -/
def optionsSelectDisabled (s : State) : Bool := s.isProcessing

/-- The start `<button>` has `disabled={isProcessing}`. -/
def startButtonDisabled (s : State) : Bool := s.isProcessing

/-- The start button label: `Processing...` while in flight, else `Start`. -/
def startButtonLabel (s : State) : String :=
  if s.isProcessing then "Processing..." else "Start"

/-- The download link of the render: shown when `correctedFileUrl` is
truthy, with `download` attribute `corrected_<fileInfo?.name>` (a null
`fileInfo` would interpolate as the string `undefined`). -/
def downloadName (s : State) : Option String :=
  if jsTruthyStr s.correctedFileUrl then
    some ("corrected_" ++
      (match s.fileInfo with
       | some fi => fi.name
       | none => "undefined"))
  else
    none

/-- The amended-slides line of the render, shown when the cell is non-null. -/
def amendedDisplay (s : State) : Option String :=
  match s.amendedSlidesCount with
  | some n => some ("Slides Amended: " ++ toString n)
  | none => none

/-! Concrete fixtures used to instantiate the theorems below. -/

/-- A sample modern-format file. -/
def sampleFile : FileData := ⟨"deck.pptx", "application/vnd.openxmlformats", 2048⟩

/-- The metadata intake derives for `sampleFile` with three slides. -/
def sampleInfo : FileInfo :=
  ⟨"deck.pptx", "application/vnd.openxmlformats", formatSizeKB 2048,
    SlideCount.num 3⟩

/-- A state that passes all three submission preconditions, with the
`language` option chosen. -/
def readyState : State :=
  { initState with
      selectedReport := some "Report1"
      fileInfo := some sampleInfo
      uploadedFile := some sampleFile
      selectedOptions := ["format", "language"] }

/-- As `readyState` but without the `language` option. -/
def readyNoLang : State := { readyState with selectedOptions := ["format"] }

/-- The simulated successful response body of the spec's test property. -/
def sampleResult : ApiResult := ⟨some "https://x/y.pptx", none, some 3⟩

/-- A state with a submission in flight. -/
def procState : State := { initState with isProcessing := true }

/-- A state where only the report has been chosen. -/
def reportOnlyState : State := { initState with selectedReport := some "Report1" }

/-- A state with report and file, but no options chosen. -/
def reportFileState : State :=
  { reportOnlyState with fileInfo := some sampleInfo, uploadedFile := some sampleFile }

/-- A `.pptx`-named file used for the C6 counterexample. -/
def corruptPptx : FileData := ⟨"a.pptx", "application/zip", 1024⟩

end Ppt

namespace Ppt

/-! Helper lemmas shared by several claim theorems. -/

/-- JS `n || 0` on an optional number agrees with `Option.getD 0`. -/
theorem jsOrNat_zero (o : Option Nat) : jsOrNat o 0 = o.getD 0 := by
  cases o with
  | none => rfl
  | some n =>
    by_cases h : n = 0 <;> simp [jsOrNat, h]

/-- A list containing an element is nonempty. -/
theorem contains_ne_nil {l : List String} {a : String}
    (h : l.contains a = true) : l ≠ [] := by
  intro hnil
  rw [hnil] at h
  simp [List.contains] at h

/-- JS `a || b` keeps a nonempty `a`. -/
theorem jsOrStr_of_ne (a b : String) (h : a ≠ "") : jsOrStr a b = a := by
  simp [jsOrStr, h]

/-- C2: the three submission preconditions are checked in order — report
chosen, file uploaded and validated, at least one option — and the first
failing check sets its own distinct message, makes no network call, and
changes no other state cell; an earlier failing check short-circuits all
later ones (the first conjunct applies for any file/options content, the
second for any options content). -/
theorem c2_precondition_order (s : State) (o : FetchOutcome) :
    (jsTruthyOptStr s.selectedReport = false →
      handleStart s o = ({ s with error := "Please select a report." }, [])) ∧
    (jsTruthyOptStr s.selectedReport = true →
      s.fileInfo = none ∨ s.uploadedFile = none →
      handleStart s o = ({ s with error := "Please upload a PowerPoint file." }, [])) ∧
    (jsTruthyOptStr s.selectedReport = true →
      s.fileInfo ≠ none → s.uploadedFile ≠ none → s.selectedOptions = [] →
      handleStart s o =
        ({ s with error := "Please select at least one option." }, [])) ∧
    ("Please select a report." ≠ "Please upload a PowerPoint file." ∧
      "Please select a report." ≠ "Please select at least one option." ∧
      "Please upload a PowerPoint file." ≠ "Please select at least one option.") := by
  refine ⟨?_, ?_, ?_, by decide⟩
  · intro h
    simp [handleStart, h]
  · intro h h1
    cases hfi : s.fileInfo with
    | none => cases hup : s.uploadedFile <;> simp [handleStart, h, hfi, hup]
    | some fi =>
      cases hup : s.uploadedFile with
      | none => simp [handleStart, h, hfi, hup]
      | some f =>
        rcases h1 with h1 | h1
        · rw [hfi] at h1; exact Option.noConfusion h1
        · rw [hup] at h1; exact Option.noConfusion h1
  · intro h h1 h2 h3
    cases hfi : s.fileInfo with
    | none => exact absurd hfi h1
    | some fi =>
      cases hup : s.uploadedFile with
      | none => exact absurd hup h2
      | some f => simp [handleStart, h, hfi, hup, h3]

/-- C2 witness: each precondition fails at its own concrete state with its
own message and an empty effect list. -/
theorem c2_witness :
    (handleStart initState (FetchOutcome.fetchThrow "net") =
      ({ initState with error := "Please select a report." }, [])) ∧
    (handleStart reportOnlyState (FetchOutcome.fetchThrow "net") =
      ({ reportOnlyState with error := "Please upload a PowerPoint file." }, [])) ∧
    (handleStart reportFileState (FetchOutcome.fetchThrow "net") =
      ({ reportFileState with error := "Please select at least one option." }, [])) :=
  ⟨(c2_precondition_order initState (FetchOutcome.fetchThrow "net")).1 (by decide),
   (c2_precondition_order reportOnlyState (FetchOutcome.fetchThrow "net")).2.1
     (by decide) (Or.inl rfl),
   (c2_precondition_order reportFileState (FetchOutcome.fetchThrow "net")).2.2.1
     (by decide) (by decide) (by decide) rfl⟩

/-- C4: an accepted submission without the `language` option makes no
network call, alerts success immediately, and leaves both result cells
null (they are cleared by the post-check resets and never repopulated). -/
theorem c4_no_language_no_fetch (s : State) (o : FetchOutcome) (fi : FileInfo)
    (f : FileData)
    (hrep : jsTruthyOptStr s.selectedReport = true)
    (hfi : s.fileInfo = some fi) (hup : s.uploadedFile = some f)
    (hne : s.selectedOptions ≠ [])
    (hlang : s.selectedOptions.contains "language" = false) :
    handleStart s o =
      ({ s with error := "", correctedFileUrl := none, amendedSlidesCount := none },
        [Effect.alert "Process started successfully!"]) := by
  have hlang2 : ¬ "language" ∈ s.selectedOptions := by simpa using hlang
  simp [handleStart, afterChecks, hrep, hfi, hup, hlang2, hne,
    List.length_eq_zero]

/-- C4 witness: the ready state without `language` goes straight to the
success alert with null result cells. -/
theorem c4_witness :
    handleStart readyNoLang (FetchOutcome.fetchThrow "net") =
      ({ readyNoLang with
          error := ""
          correctedFileUrl := none
          amendedSlidesCount := none },
        [Effect.alert "Process started successfully!"]) :=
  c4_no_language_no_fetch readyNoLang (FetchOutcome.fetchThrow "net")
    sampleInfo sampleFile (by decide) rfl rfl (by decide) (by decide)

/-- C10: a file-change event carrying no file returns immediately and
leaves every state cell unchanged. -/
theorem c10_no_file_event_is_noop (s : State) (z : Option (List String)) :
    handleFileChange s none z = s := rfl

/-- C8: every file selection that carries a file clears both result
cells — the corrected-file URL and the amended-slides count — regardless
of the validation outcome. -/
theorem c8_new_file_clears_results (s : State) (f : FileData)
    (z : Option (List String)) :
    (handleFileChange s (some f) z).correctedFileUrl = none ∧
      (handleFileChange s (some f) z).amendedSlidesCount = none := by
  refine ⟨?_, ?_⟩ <;>
  · simp only [handleFileChange]
    split
    · rfl
    · split
      · rfl
      · cases z <;> rfl

/-- C6 counterexample: a file named `a.pptx` whose bytes fail archive
parsing passes extension validation, yet `fileInfo` is cleared — so the
claimed equivalence (`fileInfo` non-null iff the uploaded file passed
extension validation) is false at this quiescent state. -/
theorem c6_counterexample :
    ¬ (((handleFileChange initState (some corruptPptx) none).fileInfo.isSome = true)
        ↔ (extensionValid corruptPptx.name = true)) := by
  decide

/-- C6 amended: after file-selection handling completes, `fileInfo` is
non-null iff the selected file's name ends case-insensitively in `.ppt`,
or it ends in `.pptx` and the archive parse succeeded. -/
theorem c6_amended_fileinfo_iff (s : State) (f : FileData)
    (z : Option (List String)) :
    (handleFileChange s (some f) z).fileInfo.isSome =
      (strEndsWith (strLower f.name) ".ppt" ||
        (strEndsWith (strLower f.name) ".pptx" && z.isSome)) := by
  unfold handleFileChange
  cases z <;>
    cases hppt : strEndsWith (strLower f.name) ".ppt" <;>
      cases hpptx : strEndsWith (strLower f.name) ".pptx" <;>
        simp [hppt, hpptx]

/-- C1: for a file with a modern `.pptx` extension whose bytes form a
well-formed archive, intake sets the slide count to the number of entries
whose path starts with `ppt/slides/slide` and ends with `.xml`; in
particular, with exactly `N` matching entries the reported count is `N`. -/
theorem c1_slide_count (s : State) (f : FileData) (entries : List String)
    (N : Nat)
    (hpptx : strEndsWith (strLower f.name) ".pptx" = true)
    (hppt : strEndsWith (strLower f.name) ".ppt" = false)
    (hN : (entries.filter isSlideEntry).length = N) :
    ∃ fi : FileInfo,
      (handleFileChange s (some f) (some entries)).fileInfo = some fi ∧
        fi.slideCount = SlideCount.num N := by
  refine ⟨⟨f.name, f.type, formatSizeKB f.size, SlideCount.num N⟩, ?_, rfl⟩
  unfold handleFileChange
  simp [hpptx, hppt, hN]

/-- C1 witness: an archive with exactly two slide entries and two decoys
reports a slide count of two. -/
theorem c1_witness :
    ∃ fi : FileInfo,
      (handleFileChange initState (some ⟨"a.pptx", "application/zip", 1000⟩)
          (some ["ppt/slides/slide1.xml", "ppt/slides/slide2.xml",
                 "ppt/slides/_rels/slide1.xml.rels", "docProps/app.xml"])).fileInfo
        = some fi ∧ fi.slideCount = SlideCount.num 2 :=
  c1_slide_count initState ⟨"a.pptx", "application/zip", 1000⟩
    ["ppt/slides/slide1.xml", "ppt/slides/slide2.xml",
     "ppt/slides/_rels/slide1.xml.rels", "docProps/app.xml"] 2
    (by decide) (by decide) (by decide)

/-- C3: for an accepted submission with the `language` option and a
successful response carrying a (nonempty) `fileUrl`, the form adopts the
URL as the downloadable reference, renders the link with suggested
filename `corrected_<original-name>`, and sets the amended-slides count to
the response value, defaulting to zero when that field is absent. -/
theorem c3_language_success (s : State) (fi : FileInfo) (f : FileData)
    (r : ApiResult) (u : String)
    (hrep : jsTruthyOptStr s.selectedReport = true)
    (hfi : s.fileInfo = some fi) (hup : s.uploadedFile = some f)
    (hlang : s.selectedOptions.contains "language" = true)
    (hurl : r.fileUrl = some u) (hu : u ≠ "") :
    (handleStart s (FetchOutcome.response true (Except.ok r))).1.correctedFileUrl
        = some u ∧
      (handleStart s (FetchOutcome.response true (Except.ok r))).1.amendedSlidesCount
        = some (r.amendedSlidesCount.getD 0) ∧
      downloadName (handleStart s (FetchOutcome.response true (Except.ok r))).1
        = some ("corrected_" ++ fi.name) := by
  have hne : s.selectedOptions ≠ [] := contains_ne_nil hlang
  have hlang2 : "language" ∈ s.selectedOptions := by simpa using hlang
  simp [handleStart, processLanguage, tryBody, afterChecks, fetchEffect,
    downloadName, jsTruthyStr, jsOrNat_zero, hrep, hfi, hup, hlang2, hurl, hu,
    hne, List.length_eq_zero]

/-- C3 witness: the spec's simulated response
`{ fileUrl := "https://x/y.pptx", amendedSlidesCount := 3 }` yields the
download link `corrected_deck.pptx` and an amended count of three. -/
theorem c3_witness :
    (handleStart readyState
        (FetchOutcome.response true (Except.ok sampleResult))).1.correctedFileUrl
        = some "https://x/y.pptx" ∧
      (handleStart readyState
        (FetchOutcome.response true (Except.ok sampleResult))).1.amendedSlidesCount
        = some 3 ∧
      downloadName (handleStart readyState
        (FetchOutcome.response true (Except.ok sampleResult))).1
        = some ("corrected_" ++ "deck.pptx") :=
  c3_language_success readyState sampleInfo sampleFile sampleResult
    "https://x/y.pptx" (by decide) rfl rfl (by decide) rfl (by decide)

/-- C5: for an accepted submission with the `language` option whose HTTP
response has a non-success status, the processing error is surfaced as the
single error message and both result cells stay null (cleared at the start
of the attempt); the processing flag ends cleared and the only effect is
the POST itself. -/
theorem c5_http_error (s : State) (fi : FileInfo) (f : FileData)
    (json : Except String ApiResult)
    (hrep : jsTruthyOptStr s.selectedReport = true)
    (hfi : s.fileInfo = some fi) (hup : s.uploadedFile = some f)
    (hlang : s.selectedOptions.contains "language" = true) :
    handleStart s (FetchOutcome.response false json) =
      ({ s with
          error := "Failed to process the PPT file."
          correctedFileUrl := none
          amendedSlidesCount := none
          isProcessing := false },
        [Effect.fetchPost apiEndpoint f (s.selectedReport.getD "")
          s.selectedOptions]) := by
  have hne : s.selectedOptions ≠ [] := contains_ne_nil hlang
  have hlang2 : "language" ∈ s.selectedOptions := by simpa using hlang
  simp [handleStart, processLanguage, tryBody, afterChecks, fetchEffect,
    jsOrStr_of_ne, hrep, hfi, hup, hlang2, hne, List.length_eq_zero]

/-- C5 witness: a non-success status at the ready state surfaces the
processing error with both result cells null. -/
theorem c5_witness :
    handleStart readyState (FetchOutcome.response false (Except.ok sampleResult)) =
      ({ readyState with
          error := "Failed to process the PPT file."
          correctedFileUrl := none
          amendedSlidesCount := none
          isProcessing := false },
        [Effect.fetchPost apiEndpoint sampleFile "Report1"
          ["format", "language"]]) :=
  c5_http_error readyState sampleInfo sampleFile (Except.ok sampleResult)
    (by decide) rfl rfl (by decide)

/-- C9: for every accepted submission with the `language` option, the
processing flag is cleared when the operation finishes, on every outcome —
success, non-success status, network exception, or JSON-parse exception. -/
theorem c9_processing_always_cleared (s : State) (o : FetchOutcome)
    (fi : FileInfo) (f : FileData)
    (hrep : jsTruthyOptStr s.selectedReport = true)
    (hfi : s.fileInfo = some fi) (hup : s.uploadedFile = some f)
    (hlang : s.selectedOptions.contains "language" = true) :
    (handleStart s o).1.isProcessing = false := by
  have hne : s.selectedOptions ≠ [] := contains_ne_nil hlang
  have hlang2 : "language" ∈ s.selectedOptions := by simpa using hlang
  cases o with
  | fetchThrow msg =>
    simp [handleStart, processLanguage, tryBody, hrep, hfi, hup, hlang2, hne,
      List.length_eq_zero]
  | response ok json =>
    cases ok with
    | false =>
      simp [handleStart, processLanguage, tryBody, hrep, hfi, hup, hlang2, hne,
        List.length_eq_zero]
    | true =>
      cases json with
      | error msg =>
        simp [handleStart, processLanguage, tryBody, hrep, hfi, hup, hlang2,
          hne, List.length_eq_zero]
      | ok r =>
        have h1 : handleStart s (FetchOutcome.response true (Except.ok r)) =
            processLanguage (afterChecks s) f
              (FetchOutcome.response true (Except.ok r)) := by
          simp [handleStart, hrep, hfi, hup, hne, hlang2, List.length_eq_zero]
        rw [h1]
        rfl

/-- C9 witness: a network exception at the ready state still ends with the
processing flag cleared. -/
theorem c9_witness :
    (handleStart readyState (FetchOutcome.fetchThrow "boom")).1.isProcessing
      = false :=
  c9_processing_always_cleared readyState (FetchOutcome.fetchThrow "boom")
    sampleInfo sampleFile (by decide) rfl rfl (by decide)

/-- C7 counterexample: with a submission in flight, the report `<select>`
is not disabled — its render carries no `disabled` attribute — so the
claim that every selection input is disabled while processing is false. -/
theorem c7_counterexample :
    procState.isProcessing = true ∧ reportSelectDisabled procState = false := by
  decide

/-- C7 amended: while a submission is in flight, the file input, the
options multi-select, and the start button are disabled, but the report
select remains enabled. -/
theorem c7_amended_disabled_inputs (s : State) (h : s.isProcessing = true) :
    fileInputDisabled s = true ∧ optionsSelectDisabled s = true ∧
      startButtonDisabled s = true ∧ reportSelectDisabled s = false := by
  simp [fileInputDisabled, optionsSelectDisabled, startButtonDisabled,
    reportSelectDisabled, h]

/-- C7 witness: the in-flight state disables the file input, options
select, and start button, while the report select stays enabled. -/
theorem c7_witness :
    fileInputDisabled procState = true ∧ optionsSelectDisabled procState = true ∧
      startButtonDisabled procState = true ∧
      reportSelectDisabled procState = false :=
  c7_amended_disabled_inputs procState rfl

end Ppt
